import Mathlib

/-!
Verification of the column-renaming script `to_shp.py` of the
co2-storage-atlas repository.

The script loads a shapefile into a GeoDataFrame, renames a fixed set of
ten columns via `gdf.rename(columns=rename_map)`, writes the result to a
new shapefile, and prints a confirmation line, a header line, and one
numbered line per resulting column.

We embed the data model (a feature collection: an ordered column list plus
rows of cell values), the rename table and the rename operation, the
console report, and the script's sequential control flow with its two
uncaught failure points (read and write).
-/

namespace ToShp

/-- Source path constant `updated_path` from `to_shp.py`. -/
def updated_path : String :=
  "C:\\Users\\User\\OneDrive\\Desktop\\Upwork\\co2-storage-atlas\\Shapefiles\\updated_commune.shp"

/-- Destination path constant `cleaned_path` from `to_shp.py`. -/
def cleaned_path : String :=
  "C:\\Users\\User\\OneDrive\\Desktop\\Upwork\\co2-storage-atlas\\Shapefiles\\updated_commune_cleaned.shp"

/-- The static rename table `rename_map` from `to_shp.py`, in source order.
A Python dict with string keys; keys are pairwise distinct, so an
association list is a faithful embedding. -/
def rename_map : List (String × String) :=
  [("SPÖ_votes", "SPO_votes"),
   ("SPÖ_perce", "SPO_perc"),
   ("ÖVP_votes", "OEVP_votes"),
   ("ÖVP_perce", "OEVP_perc"),
   ("FPÖ_votes", "FPOE_votes"),
   ("FPÖ_perce", "FPOE_perc"),
   ("GRÜNE_vot", "GRUENE_votes"),
   ("GRÜNE_per", "GRUENE_perc"),
   ("KPÖ_votes", "KPOE_votes"),
   ("KPÖ_perce", "KPOE_perc")]

/-- Dictionary lookup with identity default: how `DataFrame.rename(columns=d)`
transforms a single column label.  Exact match on the key; a label absent
from the mapping is returned unchanged. -/
def applyRename (m : List (String × String)) (s : String) : String :=
  match m with
  | [] => s
  | (k, v) :: rest => if s = k then v else applyRename rest s

/-- The label transformation performed by `gdf.rename(columns=rename_map)`
on one column name. -/
def renameName (s : String) : String :=
  applyRename rename_map s

/-- A feature collection (GeoDataFrame): an ordered list of column labels
(the geometry column among them) and an ordered list of records, each a
list of cell values aligned with the columns.  `α` is the type of cell
values (geometry or attribute). -/
structure FeatureCollection (α : Type) where
  columns : List String
  rows : List (List α)
  deriving DecidableEq, Repr

/-- `gdf.rename(columns=rename_map)`: relabels the columns, leaves every
record untouched.  Total: no error is raised for colliding labels. -/
def renameColumns {α : Type} (c : FeatureCollection α) : FeatureCollection α :=
  { columns := c.columns.map renameName, rows := c.rows }

/-- Keys of the rename table. -/
def renameKeys : List String := rename_map.map Prod.fst

/-- Values of the rename table. -/
def renameVals : List String := rename_map.map Prod.snd

/-- The numbered column listing printed by the final loop of `to_shp.py`:
`for i, col in enumerate(gdf.columns, start=1): print(f"{i}. {col}")`. -/
def numberedLines (i : Nat) (cols : List String) : List String :=
  match cols with
  | [] => []
  | c :: rest => (toString i ++ ". " ++ c) :: numberedLines (i + 1) rest

/-- The console lines printed after a successful write: the confirmation
line (`print` joins its two arguments with a space), the header line, then
the numbered column listing starting at 1. -/
def reportLines (dest : String) (cols : List String) : List String :=
  ("✅ Cleaned shapefile saved to: " ++ dest) ::
    "📋 New columns:" :: numberedLines 1 cols

/-- The two failure kinds of the script, both FileAccessError-class. -/
inductive FileError : Type where
  | readFailure : FileError
  | writeFailure : FileError
  deriving DecidableEq, Repr

/-- Modelled from the spec: the filesystem environment seen by the script.
The bodies of `gpd.read_file` and `gdf.to_file` are geopandas library
code outside this repository; per the spec, loading fails with a
FileAccessError-class condition exactly when the input path is missing or
unreadable (`inputData = none`), and writing fails exactly when the
destination directory is not writable (`destWritable = false`). -/
structure Env (α : Type) where
  inputData : Option (FeatureCollection α)
  destWritable : Bool

/-- Outcome of a successful run: the collection written to `cleaned_path`
and the console lines printed. -/
structure RunResult (α : Type) where
  written : FeatureCollection α
  consoleLines : List String
  deriving DecidableEq, Repr

/-- The script's sequential control flow: load, rename, write, report.
No exception is caught, so the first failure aborts the run with nothing
written and nothing printed. -/
def runScript {α : Type} (env : Env α) : Except FileError (RunResult α) :=
  match env.inputData with
  | none => Except.error FileError.readFailure
  | some gdf =>
    let gdf2 := renameColumns gdf
    if env.destWritable then
      Except.ok { written := gdf2,
                  consoleLines := reportLines cleaned_path gdf2.columns }
    else
      Except.error FileError.writeFailure

end ToShp

namespace ToShp

/-- A label absent from an association list's keys passes through
`applyRename` unchanged. -/
theorem applyRename_not_mem (m : List (String × String)) (s : String)
    (h : s ∉ m.map Prod.fst) : applyRename m s = s := by
  induction m with
  | nil => rfl
  | cons kv rest ih =>
    obtain ⟨k, v⟩ := kv
    simp only [List.map_cons, List.mem_cons, not_or] at h
    simp only [applyRename, if_neg h.1]
    exact ih h.2

/-- `applyRename` either fixes its argument or returns some value of the
association list. -/
theorem applyRename_eq_or_mem (m : List (String × String)) (s : String) :
    applyRename m s = s ∨ applyRename m s ∈ m.map Prod.snd := by
  induction m with
  | nil => exact Or.inl rfl
  | cons kv rest ih =>
    obtain ⟨k, v⟩ := kv
    by_cases hk : s = k
    · refine Or.inr ?_
      simp only [applyRename, if_pos hk, List.map_cons]
      exact List.mem_cons_self _ _
    · simp only [applyRename, if_neg hk, List.map_cons]
      rcases ih with h | h
      · exact Or.inl h
      · exact Or.inr (List.mem_cons_of_mem _ h)

/-- C1: every key of the rename table is sent to its mapped value, and
the table consists of exactly the ten fixed pairs listed in the spec's
External Interfaces section, in order. -/
theorem rename_table_exact :
    rename_map =
      [("SPÖ_votes", "SPO_votes"),
       ("SPÖ_perce", "SPO_perc"),
       ("ÖVP_votes", "OEVP_votes"),
       ("ÖVP_perce", "OEVP_perc"),
       ("FPÖ_votes", "FPOE_votes"),
       ("FPÖ_perce", "FPOE_perc"),
       ("GRÜNE_vot", "GRUENE_votes"),
       ("GRÜNE_per", "GRUENE_perc"),
       ("KPÖ_votes", "KPOE_votes"),
       ("KPÖ_perce", "KPOE_perc")] ∧
    ∀ p ∈ rename_map, renameName p.1 = p.2 := by
  constructor
  · rfl
  · decide

/-- C2: a column name that is not exactly a key of the rename table —
case variants and names merely containing a key included — is left
unchanged by the rename step. -/
theorem rename_identity_off_keys (s : String) (h : s ∉ renameKeys) :
    renameName s = s :=
  applyRename_not_mem rename_map s h

/-- Witness for C2 at the case-variant name "spö_votes", which contains
no exact key of the table. -/
theorem rename_identity_off_keys_witness :
    "spö_votes" ∉ renameKeys ∧ renameName "spö_votes" = "spö_votes" :=
  ⟨by decide, rename_identity_off_keys "spö_votes" (by decide)⟩

/-- No value of the rename table is itself a key of the table. -/
theorem vals_not_keys :
    ∀ v ∈ rename_map.map Prod.snd, v ∉ rename_map.map Prod.fst := by
  decide

/-- The rename label transformation is idempotent. -/
theorem renameName_idem (s : String) :
    renameName (renameName s) = renameName s := by
  rcases applyRename_eq_or_mem rename_map s with h | h
  · unfold renameName
    rw [h]
    exact h
  · exact applyRename_not_mem rename_map (renameName s) (vals_not_keys _ h)

/-- C3: the rename step is idempotent on whole collections: a second pass
over the output of a first pass is a no-op. -/
theorem rename_idempotent {α : Type} (c : FeatureCollection α) :
    renameColumns (renameColumns c) = renameColumns c := by
  unfold renameColumns
  simp only [List.map_map]
  congr 1
  apply List.map_congr_left
  intro s _
  exact renameName_idem s

/-- C4: the rename step changes only the column labels: the records, their
number and order, and every cell value (geometry and attribute alike) are
identical before and after, and no column is added or dropped. -/
theorem rename_frame {α : Type} (c : FeatureCollection α) :
    (renameColumns c).rows = c.rows ∧
    (renameColumns c).rows.length = c.rows.length ∧
    (renameColumns c).columns.length = c.columns.length :=
  ⟨rfl, rfl, List.length_map _ _⟩

/-- C8: a collection already holding the target name "OEVP_votes" next to
the old name "ÖVP_votes" comes out of the rename step with the duplicate
label "OEVP_votes" twice; rows and cell values are untouched and no error
is raised (the operation is total). -/
theorem rename_collision_preserved :
    renameColumns ({ columns := ["geometry", "OEVP_votes", "ÖVP_votes"],
                     rows := [[0, 1, 2], [3, 4, 5]] } : FeatureCollection Nat) =
      { columns := ["geometry", "OEVP_votes", "OEVP_votes"],
        rows := [[0, 1, 2], [3, 4, 5]] } ∧
    (renameColumns ({ columns := ["geometry", "OEVP_votes", "ÖVP_votes"],
                      rows := [[0, 1, 2], [3, 4, 5]] } :
        FeatureCollection Nat)).columns.count "OEVP_votes" = 2 := by
  decide

/-- C10: the ten values of the rename table are pairwise distinct, no
value is a key, and distinct keys are never sent to the same new name, so
a duplicate label after renaming can only collide with a pre-existing
unmapped name. -/
theorem rename_table_invariants :
    (rename_map.map Prod.snd).Nodup ∧
    (∀ v ∈ rename_map.map Prod.snd, v ∉ rename_map.map Prod.fst) ∧
    (∀ a ∈ renameKeys, ∀ b ∈ renameKeys, a ≠ b → renameName a ≠ renameName b) := by
  decide

/-- C5: on a collection with columns
`["geometry","SPÖ_votes","FPÖ_perce","Other"]` the rename step produces
columns `["geometry","SPO_votes","FPOE_perc","Other"]` in the same order. -/
theorem rename_scenario_columns :
    (renameColumns ({ columns := ["geometry", "SPÖ_votes", "FPÖ_perce", "Other"],
                      rows := [] } : FeatureCollection Unit)).columns =
      ["geometry", "SPO_votes", "FPOE_perc", "Other"] := by
  decide

/-- The numbered listing has one line per column. -/
theorem numberedLines_length (cols : List String) :
    ∀ i, (numberedLines i cols).length = cols.length := by
  induction cols with
  | nil => intro i; rfl
  | cons c rest ih =>
    intro i
    simp only [numberedLines, List.length_cons, ih (i + 1)]

/-- Line `j` of the numbered listing starting at `i` is column `j`
prefixed with index `i + j`. -/
theorem numberedLines_getElem (cols : List String) :
    ∀ i j, (numberedLines i cols)[j]? =
      (cols[j]?).map (fun c => toString (i + j) ++ ". " ++ c) := by
  induction cols with
  | nil => intro i j; simp [numberedLines]
  | cons c rest ih =>
    intro i j
    cases j with
    | zero => simp [numberedLines]
    | succ j =>
      simp only [numberedLines, List.getElem?_cons_succ]
      rw [ih (i + 1) j]
      have h : i + 1 + j = i + (j + 1) := by omega
      rw [h]

/-- Counterexample to C6: on a one-column collection the report is three
lines, not the two (one confirmation line plus one line per column) the
claim requires, and the line right after the confirmation is the fixed
header "📋 New columns:", not a numbered column line. -/
theorem report_extra_header_cex :
    (reportLines cleaned_path ["geometry"]).length = 3 ∧
    (reportLines cleaned_path ["geometry"]).length ≠
      1 + (["geometry"] : List String).length ∧
    (reportLines cleaned_path ["geometry"])[1]? = some "📋 New columns:" := by
  refine ⟨rfl, by decide, rfl⟩

/-- C6 amended: after a successful write the program prints one
confirmation line containing the destination path, then one fixed header
line, then one line per post-rename column in column order, each of the
form "<index>. <column name>" with a 1-based index. -/
theorem report_structure (d : String) (cols : List String) :
    (reportLines d cols).length = 2 + cols.length ∧
    (reportLines d cols)[0]? = some ("✅ Cleaned shapefile saved to: " ++ d) ∧
    (reportLines d cols)[1]? = some "📋 New columns:" ∧
    ∀ j, ((reportLines d cols).drop 2)[j]? =
      (cols[j]?).map (fun c => toString (j + 1) ++ ". " ++ c) := by
  refine ⟨?_, ?_, ?_, ?_⟩
  · simp only [reportLines, List.length_cons, numberedLines_length cols 1]
    omega
  · simp [reportLines]
  · simp [reportLines]
  · intro j
    simp only [reportLines, List.drop_succ_cons, List.drop_zero]
    rw [numberedLines_getElem cols 1 j, Nat.add_comm 1 j]

/-- C7: when the input path is missing or unreadable the run aborts with
the read failure; the rename, write and report steps are never reached
and nothing is written. -/
theorem read_failure_aborts {α : Type} (env : Env α)
    (h : env.inputData = none) :
    runScript env = Except.error FileError.readFailure := by
  unfold runScript
  rw [h]

/-- Witness for C7 on a concrete environment with no readable input. -/
theorem read_failure_aborts_witness :
    runScript ({ inputData := none, destWritable := true } : Env Unit) =
      Except.error FileError.readFailure :=
  read_failure_aborts _ rfl

/-- C9: when the input loads but the destination directory is not
writable, the run aborts with the write failure after load and rename;
the failure is not caught or retried and no report is printed. -/
theorem write_failure_aborts {α : Type} (env : Env α)
    (gdf : FeatureCollection α) (h1 : env.inputData = some gdf)
    (h2 : env.destWritable = false) :
    runScript env = Except.error FileError.writeFailure := by
  simp [runScript, h1, h2]

/-- Witness for C9 on a concrete environment with readable input and an
unwritable destination. -/
theorem write_failure_aborts_witness :
    runScript ({ inputData := some { columns := ["geometry"], rows := [] },
                 destWritable := false } : Env Unit) =
      Except.error FileError.writeFailure :=
  write_failure_aborts _ { columns := ["geometry"], rows := [] } rfl rfl

end ToShp
